import Mathlib

/-!
Shallow embedding of the optical-flow acquisition-and-fusion pipeline of
`libraries/AP_HAL_Linux/OpticalFlow_Onboard.cpp` (ArduPilot).

Modelling conventions:
- C `float` members and gyro/flow values are modelled as rationals `ℚ`;
- `uint32_t` timestamps and the accumulated timespan are modelled as `ℕ`
  (monotonic timestamps, no wraparound relevant to the verified claims);
- the external flow estimator (`Flow_PX4::compute_flow`) and the gyro
  callback are modelled as per-iteration event inputs, since their outputs
  are opaque data to this driver;
- the compile-time focal-length constant `HAL_FLOW_PX4_FOCAL_LENGTH_MILLIPX`
  (a board-specific header constant) is a parameter `focal` of the
  definitions that use it.
-/

namespace OpticalFlowOnboard

/-- Modelled from the spec: the fixed target output geometry is 64×64
(`HAL_OPTFLOW_ONBOARD_OUTPUT_WIDTH`, a board-header compile-time constant that
is not under `src/`; the spec fixes the target at 64×64). -/
def HAL_OPTFLOW_ONBOARD_OUTPUT_WIDTH : ℕ := 64

/-- Modelled from the spec: the fixed target output geometry is 64×64
(`HAL_OPTFLOW_ONBOARD_OUTPUT_HEIGHT`, a board-header compile-time constant that
is not under `src/`; the spec fixes the target at 64×64). -/
def HAL_OPTFLOW_ONBOARD_OUTPUT_HEIGHT : ℕ := 64

/-- The linux `v4l2_fourcc(a,b,c,d)` pixel-format code constructor. -/
def v4l2_fourcc (a b c d : ℕ) : ℕ :=
  a + b * 256 + c * 65536 + d * 16777216

/-- Pixel format `NV12` (packed 4:2:0), fourcc of the characters N V 1 2. -/
def V4L2_PIX_FMT_NV12 : ℕ := v4l2_fourcc 78 86 49 50

/-- Pixel format `GREY` (single-channel grayscale), fourcc of G R E Y. -/
def V4L2_PIX_FMT_GREY : ℕ := v4l2_fourcc 71 82 69 89

/-- Pixel format `YUYV` (packed 4:2:2), fourcc of Y U Y V. -/
def V4L2_PIX_FMT_YUYV : ℕ := v4l2_fourcc 89 85 89 86

/-- The unsupported-format check of `OpticalFlow_Onboard::init`
(OpticalFlow_Onboard.cpp lines 117-120): `true` means the fatal
`AP_HAL::panic` branch is taken, `false` means initialization proceeds. -/
def init_format_fatal (fmt : ℕ) : Bool :=
  fmt != V4L2_PIX_FMT_NV12 && fmt != V4L2_PIX_FMT_GREY &&
    fmt != V4L2_PIX_FMT_YUYV

/-- The geometry/strategy configuration written by `OpticalFlow_Onboard::init`
(the members `_width`, `_height`, `_bytesperline`, `_camera_output_width`,
`_camera_output_height`, `_shrink_by_software`, `_crop_by_software`). -/
structure GeometryConfig where
  _width : ℕ
  _height : ℕ
  _bytesperline : ℕ
  _camera_output_width : ℕ
  _camera_output_height : ℕ
  _shrink_by_software : Bool
  _crop_by_software : Bool
deriving DecidableEq

/-- The strategy-selection part of `OpticalFlow_Onboard::init`
(OpticalFlow_Onboard.cpp lines 122-156).  Inputs: the actual width/height and
bytes-per-line negotiated by `VideoIn::set_format`, and whether
`VideoIn::set_crop` succeeded. -/
def init_geometry (w h bpl : ℕ) (set_crop_ok : Bool) : GeometryConfig :=
  let g0 : GeometryConfig :=
    { _width := w, _height := h, _bytesperline := bpl,
      _camera_output_width := 0, _camera_output_height := 0,
      _shrink_by_software := false, _crop_by_software := false }
  let g1 : GeometryConfig :=
    if g0._width = HAL_OPTFLOW_ONBOARD_OUTPUT_WIDTH ∧
        g0._height = HAL_OPTFLOW_ONBOARD_OUTPUT_HEIGHT then
      { g0 with _shrink_by_software := false }
    else
      { g0 with _shrink_by_software := true,
                _camera_output_width := g0._width,
                _camera_output_height := g0._height,
                _width := HAL_OPTFLOW_ONBOARD_OUTPUT_WIDTH,
                _height := HAL_OPTFLOW_ONBOARD_OUTPUT_HEIGHT,
                _bytesperline := HAL_OPTFLOW_ONBOARD_OUTPUT_WIDTH }
  if set_crop_ok then
    { g1 with _crop_by_software := false }
  else if g1._shrink_by_software = false then
    { g1 with _crop_by_software := true,
              _camera_output_width := g1._width,
              _camera_output_height := g1._height,
              _width := HAL_OPTFLOW_ONBOARD_OUTPUT_WIDTH,
              _height := HAL_OPTFLOW_ONBOARD_OUTPUT_HEIGHT,
              _bytesperline := HAL_OPTFLOW_ONBOARD_OUTPUT_WIDTH }
  else
    { g1 with _crop_by_software := true }

/-- The three per-frame normalization strategies of the frame loop. -/
inductive NormalizeAction where
  | no_adjustment
  | software_shrink
  | software_crop
deriving DecidableEq

/-- The per-frame normalization dispatch of `OpticalFlow_Onboard::_run_optflow`
(OpticalFlow_Onboard.cpp lines 310-328): `if (_shrink_by_software) ... else if
(_crop_by_software) ...`. -/
def normalize_action (shrink crop : Bool) : NormalizeAction :=
  if shrink then NormalizeAction.software_shrink
  else if crop then NormalizeAction.software_crop
  else NormalizeAction.no_adjustment

/-- The integer downscale factor computed by `_run_optflow`
(OpticalFlow_Onboard.cpp lines 267-274) from the camera output geometry. -/
def shrink_scale (cam_w cam_h : ℕ) : ℕ :=
  if cam_w > cam_h then
    cam_h / HAL_OPTFLOW_ONBOARD_OUTPUT_HEIGHT
  else
    cam_w / HAL_OPTFLOW_ONBOARD_OUTPUT_WIDTH

/-- Width of the shrunk sub-region (`_run_optflow` line 276). -/
def shrink_width (cam_w cam_h : ℕ) : ℕ :=
  HAL_OPTFLOW_ONBOARD_OUTPUT_WIDTH * shrink_scale cam_w cam_h

/-- Height of the shrunk sub-region (`_run_optflow` line 277). -/
def shrink_height (cam_w cam_h : ℕ) : ℕ :=
  HAL_OPTFLOW_ONBOARD_OUTPUT_HEIGHT * shrink_scale cam_w cam_h

/-- Horizontal offset of the shrunk sub-region (`_run_optflow` line 279). -/
def shrink_width_offset (cam_w cam_h : ℕ) : ℕ :=
  (cam_w - shrink_width cam_w cam_h) / 2

/-- Vertical offset of the shrunk sub-region (`_run_optflow` line 280). -/
def shrink_height_offset (cam_w cam_h : ℕ) : ℕ :=
  (cam_h - shrink_height cam_w cam_h) / 2

/-- A three-axis angular-rate vector (ArduPilot `Vector3f`), rationals for
the C floats. -/
structure Vector3f where
  x : ℚ
  y : ℚ
  z : ℚ
deriving DecidableEq

/-- A two-axis flow vector (ArduPilot `Vector2f`), rationals for the C
floats. -/
structure Vector2f where
  x : ℚ
  y : ℚ
deriving DecidableEq

/-- The consumer-visible sample record `AP_HAL::OpticalFlow::Data_Frame`. -/
structure Data_Frame where
  pixel_flow_x_integral : ℚ
  pixel_flow_y_integral : ℚ
  gyro_x_integral : ℚ
  gyro_y_integral : ℚ
  delta_time : ℕ
  quality : ℕ
deriving DecidableEq

/-- The mutex-protected flow-integrator members of `OpticalFlow_Onboard`:
`_pixel_flow_x_integral`, `_pixel_flow_y_integral`, `_gyro_x_integral`,
`_gyro_y_integral`, `_integration_timespan`, `_surface_quality`,
`_data_available`. -/
structure OpticalFlowState where
  _pixel_flow_x_integral : ℚ
  _pixel_flow_y_integral : ℚ
  _gyro_x_integral : ℚ
  _gyro_y_integral : ℚ
  _integration_timespan : ℕ
  _surface_quality : ℕ
  _data_available : Bool
deriving DecidableEq

/-- `OpticalFlow_Onboard::read` (OpticalFlow_Onboard.cpp lines 192-217).
The C++ takes the output record by reference and returns `bool`; here the
result is the returned `bool`, the post-call integrator state, and the
post-call output record (equal to the input record when nothing is written). -/
def read (s : OpticalFlowState) (frame : Data_Frame) :
    Bool × OpticalFlowState × Data_Frame :=
  if !s._data_available then
    (false, s, frame)
  else
    (true,
     { s with _integration_timespan := 0,
              _pixel_flow_x_integral := 0,
              _pixel_flow_y_integral := 0,
              _gyro_x_integral := 0,
              _gyro_y_integral := 0,
              _data_available := false },
     { pixel_flow_x_integral := s._pixel_flow_x_integral,
       pixel_flow_y_integral := s._pixel_flow_y_integral,
       gyro_x_integral := s._gyro_x_integral,
       gyro_y_integral := s._gyro_y_integral,
       delta_time := s._integration_timespan,
       quality := s._surface_quality })

/-- The locked accumulation block of `_run_optflow` (OpticalFlow_Onboard.cpp
lines 372-387): `flow_rate` is what `compute_flow` produced, `dt` the
timestamp difference between the current and previous frame, `gyro_rate` the
current and `last_gyro_rate` the cached previous angular-rate sample, `qual`
the quality returned by `compute_flow`; `focal` is the compile-time constant
`HAL_FLOW_PX4_FOCAL_LENGTH_MILLIPX`. -/
def integrate_sample (focal : ℚ) (s : OpticalFlowState) (flow_rate : Vector2f)
    (dt : ℕ) (gyro_rate last_gyro_rate : Vector3f) (qual : ℕ) :
    OpticalFlowState :=
  { _pixel_flow_x_integral := s._pixel_flow_x_integral + flow_rate.x / focal,
    _pixel_flow_y_integral := s._pixel_flow_y_integral + flow_rate.y / focal,
    _integration_timespan := s._integration_timespan + dt,
    _gyro_x_integral := s._gyro_x_integral +
      (gyro_rate.x + last_gyro_rate.x) / 2 * (dt : ℚ),
    _gyro_y_integral := s._gyro_y_integral +
      (gyro_rate.y + last_gyro_rate.y) / 2 * (dt : ℚ),
    _surface_quality := qual,
    _data_available := true }

/-- One iteration's externally supplied data: the captured frame's timestamp,
the gyro callback's current sample, and the flow vector and quality that
`Flow_PX4::compute_flow` yields for this frame pair (the estimator is outside
this driver and treated as an oracle). -/
structure FrameEvent where
  timestamp : ℕ
  gyro : Vector3f
  flow : Vector2f
  qual : ℕ
deriving DecidableEq

/-- The acquisition-loop state carried across iterations of `_run_optflow`:
the cached previous frame (`_last_video_frame`, `none` while its data pointer
is still NULL, otherwise its timestamp), the cached previous angular rate
(`_last_gyro_rate`), and the shared integrator state. -/
structure LoopState where
  _last_frame_timestamp : Option ℕ
  _last_gyro_rate : Vector3f
  st : OpticalFlowState
deriving DecidableEq

/-- One iteration of the `while(true)` loop of `_run_optflow`
(OpticalFlow_Onboard.cpp lines 288-393) after normalization: if no previous
frame is cached the new frame is cached and the iteration ends (warm-up,
lines 332-335); otherwise `compute_flow` runs once, the integrator
accumulates once, and the frame and gyro caches are promoted (lines 338-392).
The second component counts the `compute_flow` invocations of the
iteration. -/
def loop_step (focal : ℚ) (s : LoopState) (ev : FrameEvent) : LoopState × ℕ :=
  match s._last_frame_timestamp with
  | none => ({ s with _last_frame_timestamp := some ev.timestamp }, 0)
  | some t0 =>
      ({ _last_frame_timestamp := some ev.timestamp,
         _last_gyro_rate := ev.gyro,
         st := integrate_sample focal s.st ev.flow (ev.timestamp - t0)
                 ev.gyro s._last_gyro_rate ev.qual }, 1)

/-- Iterated acquisition loop over a list of per-iteration events. -/
def run_loop (focal : ℚ) (s : LoopState) : List FrameEvent → LoopState
  | [] => s
  | ev :: rest => run_loop focal ((loop_step focal s ev).1) rest

/-- Modelled from the spec: the loop state at thread start — the
previous-frame cache is empty (spec §3: first iteration has no predecessor
and is skipped) and the cached previous angular rate is the zero vector
(`_last_gyro_rate` is a default-constructed `Vector3f`; the class declaration
holding the member is outside `src/`, and ArduPilot `Vector3f` default
construction zero-fills). The integrator accumulators start zeroed (spec §3:
zeroed at construction). -/
def initial_state : LoopState :=
  { _last_frame_timestamp := none,
    _last_gyro_rate := ⟨0, 0, 0⟩,
    st := ⟨0, 0, 0, 0, 0, 0, false⟩ }

/-- The integrator state immediately after a successful drain (or at
construction): all four numeric accumulators and the timespan zero, dirty
flag clear, quality left at `q`. -/
def drained (q : ℕ) : OpticalFlowState :=
  ⟨0, 0, 0, 0, 0, q, false⟩

/-- Per-iteration elapsed times along an event list, starting from previous
timestamp `t0` (each iteration uses current minus previous timestamp). -/
def elapsed_times (t0 : ℕ) : List FrameEvent → List ℕ
  | [] => []
  | ev :: rest => (ev.timestamp - t0) :: elapsed_times ev.timestamp rest

/-- Per-iteration trapezoidal x-gyro terms along an event list, starting from
previous rate `g0` and previous timestamp `t0`. -/
def trapezoid_terms_x (g0 : Vector3f) (t0 : ℕ) : List FrameEvent → List ℚ
  | [] => []
  | ev :: rest =>
      ((ev.gyro.x + g0.x) / 2 * ((ev.timestamp - t0 : ℕ) : ℚ)) ::
        trapezoid_terms_x ev.gyro ev.timestamp rest

/-- Per-iteration trapezoidal y-gyro terms along an event list, starting from
previous rate `g0` and previous timestamp `t0`. -/
def trapezoid_terms_y (g0 : Vector3f) (t0 : ℕ) : List FrameEvent → List ℚ
  | [] => []
  | ev :: rest =>
      ((ev.gyro.y + g0.y) / 2 * ((ev.timestamp - t0 : ℕ) : ℚ)) ::
        trapezoid_terms_y ev.gyro ev.timestamp rest

/-- Claim C1 counterexample: the claim states that the flags chosen at init
never select both software shrink and software crop for the same run; but
when the camera reports 320×240 (differing from the 64×64 target) and the
hardware crop request fails, `init` sets both `_shrink_by_software` and
`_crop_by_software`. -/
theorem claim_C1_counterexample :
    (init_geometry 320 240 320 false)._shrink_by_software = true ∧
    (init_geometry 320 240 320 false)._crop_by_software = true := by
  decide

/-- Claim C1 (amended): after initialization exactly one of the three
normalization strategies is active for a run, because the per-frame dispatch
tests the shrink flag before the crop flag: software shrink is active exactly
when the shrink flag is set, software crop exactly when the shrink flag is
clear and the crop flag set, and no adjustment exactly when both flags are
clear; moreover the post-init output geometry always equals the fixed 64×64
target.  (Init may set both flags in the same run, in which case only shrink
is active.) -/
theorem claim_C1_amended (w h bpl : ℕ) (set_crop_ok : Bool) :
    (normalize_action (init_geometry w h bpl set_crop_ok)._shrink_by_software
        (init_geometry w h bpl set_crop_ok)._crop_by_software =
        NormalizeAction.software_shrink ↔
      (init_geometry w h bpl set_crop_ok)._shrink_by_software = true) ∧
    (normalize_action (init_geometry w h bpl set_crop_ok)._shrink_by_software
        (init_geometry w h bpl set_crop_ok)._crop_by_software =
        NormalizeAction.software_crop ↔
      ((init_geometry w h bpl set_crop_ok)._shrink_by_software = false ∧
       (init_geometry w h bpl set_crop_ok)._crop_by_software = true)) ∧
    (normalize_action (init_geometry w h bpl set_crop_ok)._shrink_by_software
        (init_geometry w h bpl set_crop_ok)._crop_by_software =
        NormalizeAction.no_adjustment ↔
      ((init_geometry w h bpl set_crop_ok)._shrink_by_software = false ∧
       (init_geometry w h bpl set_crop_ok)._crop_by_software = false)) ∧
    (init_geometry w h bpl set_crop_ok)._width =
      HAL_OPTFLOW_ONBOARD_OUTPUT_WIDTH ∧
    (init_geometry w h bpl set_crop_ok)._height =
      HAL_OPTFLOW_ONBOARD_OUTPUT_HEIGHT := by
  unfold init_geometry normalize_action
  dsimp only
  split_ifs <;>
    simp_all [HAL_OPTFLOW_ONBOARD_OUTPUT_WIDTH,
      HAL_OPTFLOW_ONBOARD_OUTPUT_HEIGHT]

/-- Claim C2: when the shrink strategy is active, the integer downscale
factor equals the minimum of the two per-axis factors
`⌊camera_width / 64⌋` and `⌊camera_height / 64⌋` for every camera output
geometry; the selected sub-region has size target × factor and is centered in
the camera frame (left and right margins differ by at most one, likewise top
and bottom); and concretely for a 320×240 frame the factor is 3 and the
selected region is the centered 192×192 window (offsets 64 and 24). -/
theorem claim_C2_shrink_scale :
    (∀ cam_w cam_h : ℕ,
      shrink_scale cam_w cam_h =
        min (cam_w / HAL_OPTFLOW_ONBOARD_OUTPUT_WIDTH)
            (cam_h / HAL_OPTFLOW_ONBOARD_OUTPUT_HEIGHT)) ∧
    (∀ cam_w cam_h : ℕ,
      shrink_width cam_w cam_h ≤ cam_w ∧
      shrink_height cam_w cam_h ≤ cam_h ∧
      shrink_width_offset cam_w cam_h + shrink_width cam_w cam_h +
          shrink_width_offset cam_w cam_h ≤ cam_w ∧
      cam_w ≤ shrink_width_offset cam_w cam_h + shrink_width cam_w cam_h +
          shrink_width_offset cam_w cam_h + 1 ∧
      shrink_height_offset cam_w cam_h + shrink_height cam_w cam_h +
          shrink_height_offset cam_w cam_h ≤ cam_h ∧
      cam_h ≤ shrink_height_offset cam_w cam_h + shrink_height cam_w cam_h +
          shrink_height_offset cam_w cam_h + 1) ∧
    shrink_scale 320 240 = 3 ∧
    shrink_width 320 240 = 192 ∧ shrink_height 320 240 = 192 ∧
    shrink_width_offset 320 240 = 64 ∧ shrink_height_offset 320 240 = 24 := by
  have hscale : ∀ cam_w cam_h : ℕ,
      shrink_scale cam_w cam_h =
        min (cam_w / HAL_OPTFLOW_ONBOARD_OUTPUT_WIDTH)
            (cam_h / HAL_OPTFLOW_ONBOARD_OUTPUT_HEIGHT) := by
    intro cam_w cam_h
    unfold shrink_scale
    unfold HAL_OPTFLOW_ONBOARD_OUTPUT_WIDTH HAL_OPTFLOW_ONBOARD_OUTPUT_HEIGHT
    split_ifs with hgt
    · exact (min_eq_right (Nat.div_le_div_right hgt.le)).symm
    · exact (min_eq_left (Nat.div_le_div_right (Nat.le_of_not_lt hgt))).symm
  refine ⟨hscale, ?_, by decide, by decide, by decide, by decide, by decide⟩
  intro cam_w cam_h
  have hw : shrink_width cam_w cam_h ≤ cam_w := by
    unfold shrink_width
    rw [hscale]
    calc HAL_OPTFLOW_ONBOARD_OUTPUT_WIDTH *
        min (cam_w / HAL_OPTFLOW_ONBOARD_OUTPUT_WIDTH)
            (cam_h / HAL_OPTFLOW_ONBOARD_OUTPUT_HEIGHT) ≤
        HAL_OPTFLOW_ONBOARD_OUTPUT_WIDTH *
          (cam_w / HAL_OPTFLOW_ONBOARD_OUTPUT_WIDTH) :=
          Nat.mul_le_mul_left _ (min_le_left _ _)
      _ ≤ cam_w := Nat.mul_div_le cam_w HAL_OPTFLOW_ONBOARD_OUTPUT_WIDTH
  have hh : shrink_height cam_w cam_h ≤ cam_h := by
    unfold shrink_height
    rw [hscale]
    calc HAL_OPTFLOW_ONBOARD_OUTPUT_HEIGHT *
        min (cam_w / HAL_OPTFLOW_ONBOARD_OUTPUT_WIDTH)
            (cam_h / HAL_OPTFLOW_ONBOARD_OUTPUT_HEIGHT) ≤
        HAL_OPTFLOW_ONBOARD_OUTPUT_HEIGHT *
          (cam_h / HAL_OPTFLOW_ONBOARD_OUTPUT_HEIGHT) :=
          Nat.mul_le_mul_left _ (min_le_right _ _)
      _ ≤ cam_h := Nat.mul_div_le cam_h HAL_OPTFLOW_ONBOARD_OUTPUT_HEIGHT
  have hwdm := Nat.div_add_mod (cam_w - shrink_width cam_w cam_h) 2
  have hwlt : (cam_w - shrink_width cam_w cam_h) % 2 < 2 :=
    Nat.mod_lt _ (by omega)
  have hhdm := Nat.div_add_mod (cam_h - shrink_height cam_w cam_h) 2
  have hhlt : (cam_h - shrink_height cam_w cam_h) % 2 < 2 :=
    Nat.mod_lt _ (by omega)
  unfold shrink_width_offset shrink_height_offset
  omega

/-- Claim C8: the format gate of `init` takes the fatal branch exactly for
pixel formats outside the three supported ones (grayscale `GREY`, packed
4:2:0 `NV12`, packed 4:2:2 `YUYV`), and initialization proceeds exactly for
formats inside that set. -/
theorem claim_C8_format_gate (fmt : ℕ) :
    (init_format_fatal fmt = true ↔
      ¬(fmt = V4L2_PIX_FMT_NV12 ∨ fmt = V4L2_PIX_FMT_GREY ∨
        fmt = V4L2_PIX_FMT_YUYV)) ∧
    (init_format_fatal fmt = false ↔
      (fmt = V4L2_PIX_FMT_NV12 ∨ fmt = V4L2_PIX_FMT_GREY ∨
        fmt = V4L2_PIX_FMT_YUYV)) := by
  unfold init_format_fatal
  constructor
  · simp only [Bool.and_eq_true, bne_iff_ne, ne_eq]
    tauto
  · simp only [Bool.and_eq_false_iff, bne_eq_false_iff_eq]
    tauto

/-- Concrete integrator state with the dirty flag set, for witnesses. -/
def stateA : OpticalFlowState := ⟨1, 2, 3, 4, 5, 6, true⟩

/-- Concrete integrator state with the dirty flag clear, for witnesses. -/
def stateB : OpticalFlowState := ⟨1, 2, 3, 4, 5, 6, false⟩

/-- A concrete caller-supplied output record, for witnesses. -/
def frame0 : Data_Frame := ⟨10, 20, 30, 40, 50, 60⟩

/-- Claim C3: `read` returns `false` and writes nothing when the dirty flag
is unset; when it is set, `read` copies all six accumulated fields into the
output record, zeroes the four numeric accumulators and the timespan, clears
the dirty flag, and returns `true`. -/
theorem claim_C3_read (s : OpticalFlowState) (f : Data_Frame) :
    (s._data_available = false → read s f = (false, s, f)) ∧
    (s._data_available = true →
      (read s f).1 = true ∧
      (read s f).2.2.pixel_flow_x_integral = s._pixel_flow_x_integral ∧
      (read s f).2.2.pixel_flow_y_integral = s._pixel_flow_y_integral ∧
      (read s f).2.2.gyro_x_integral = s._gyro_x_integral ∧
      (read s f).2.2.gyro_y_integral = s._gyro_y_integral ∧
      (read s f).2.2.delta_time = s._integration_timespan ∧
      (read s f).2.2.quality = s._surface_quality ∧
      (read s f).2.1._pixel_flow_x_integral = 0 ∧
      (read s f).2.1._pixel_flow_y_integral = 0 ∧
      (read s f).2.1._gyro_x_integral = 0 ∧
      (read s f).2.1._gyro_y_integral = 0 ∧
      (read s f).2.1._integration_timespan = 0 ∧
      (read s f).2.1._data_available = false) := by
  constructor
  · intro h
    simp [read, h]
  · intro h
    simp [read, h]

/-- Claim C3 witness: both branches of `claim_C3_read` evaluated on concrete
states. -/
theorem claim_C3_read_witness :
    (stateB._data_available = false ∧
      read stateB frame0 = (false, stateB, frame0)) ∧
    (stateA._data_available = true ∧
      ((read stateA frame0).1 = true ∧
       (read stateA frame0).2.2.pixel_flow_x_integral =
         stateA._pixel_flow_x_integral ∧
       (read stateA frame0).2.2.pixel_flow_y_integral =
         stateA._pixel_flow_y_integral ∧
       (read stateA frame0).2.2.gyro_x_integral = stateA._gyro_x_integral ∧
       (read stateA frame0).2.2.gyro_y_integral = stateA._gyro_y_integral ∧
       (read stateA frame0).2.2.delta_time = stateA._integration_timespan ∧
       (read stateA frame0).2.2.quality = stateA._surface_quality ∧
       (read stateA frame0).2.1._pixel_flow_x_integral = 0 ∧
       (read stateA frame0).2.1._pixel_flow_y_integral = 0 ∧
       (read stateA frame0).2.1._gyro_x_integral = 0 ∧
       (read stateA frame0).2.1._gyro_y_integral = 0 ∧
       (read stateA frame0).2.1._integration_timespan = 0 ∧
       (read stateA frame0).2.1._data_available = false)) :=
  ⟨⟨by decide, (claim_C3_read stateB frame0).1 (by decide)⟩,
   ⟨by decide, (claim_C3_read stateA frame0).2 (by decide)⟩⟩

/-- Claim C4: each steady-state accumulation adds `flow_x` and `flow_y`
divided by the focal-length constant to the pixel-flow integrals, adds the
elapsed time (current minus previous frame timestamp) to the accumulated
timespan, adds the average of the previous and current angular-rate samples
times the elapsed time to each gyro integral, overwrites the quality with the
latest computed value, and sets the dirty flag. -/
theorem claim_C4_accumulate (focal : ℚ) (t0 : ℕ) (g0 : Vector3f)
    (st : OpticalFlowState) (ev : FrameEvent) :
    (loop_step focal ⟨some t0, g0, st⟩ ev).1.st._pixel_flow_x_integral =
      st._pixel_flow_x_integral + ev.flow.x / focal ∧
    (loop_step focal ⟨some t0, g0, st⟩ ev).1.st._pixel_flow_y_integral =
      st._pixel_flow_y_integral + ev.flow.y / focal ∧
    (loop_step focal ⟨some t0, g0, st⟩ ev).1.st._integration_timespan =
      st._integration_timespan + (ev.timestamp - t0) ∧
    (loop_step focal ⟨some t0, g0, st⟩ ev).1.st._gyro_x_integral =
      st._gyro_x_integral +
        (ev.gyro.x + g0.x) / 2 * ((ev.timestamp - t0 : ℕ) : ℚ) ∧
    (loop_step focal ⟨some t0, g0, st⟩ ev).1.st._gyro_y_integral =
      st._gyro_y_integral +
        (ev.gyro.y + g0.y) / 2 * ((ev.timestamp - t0 : ℕ) : ℚ) ∧
    (loop_step focal ⟨some t0, g0, st⟩ ev).1.st._surface_quality = ev.qual ∧
    (loop_step focal ⟨some t0, g0, st⟩ ev).1.st._data_available = true := by
  simp [loop_step, integrate_sample]

/-- Claim C7: if `read` succeeds, an immediately following `read` with no
intervening acquisition iteration returns `false` with nothing written. -/
theorem claim_C7_drain_once (s : OpticalFlowState) (f g : Data_Frame)
    (h : (read s f).1 = true) :
    read (read s f).2.1 g = (false, (read s f).2.1, g) := by
  by_cases hda : s._data_available
  · simp [read, hda]
  · simp [read, hda] at h

/-- Claim C7 witness: `claim_C7_drain_once` evaluated on a concrete dirty
state. -/
theorem claim_C7_drain_once_witness :
    (read stateA frame0).1 = true ∧
    read (read stateA frame0).2.1 frame0 =
      (false, (read stateA frame0).2.1, frame0) :=
  ⟨by decide, claim_C7_drain_once stateA frame0 frame0 (by decide)⟩

/-- Claim C10: whenever `read` returns `false`, no field of the
caller-supplied output record is written and the entire integrator state is
left unchanged. -/
theorem claim_C10_failed_read (s : OpticalFlowState) (f : Data_Frame)
    (h : (read s f).1 = false) :
    (read s f).2.1 = s ∧ (read s f).2.2 = f := by
  by_cases hda : s._data_available
  · simp [read, hda] at h
  · simp [read, hda]

/-- Claim C10 witness: `claim_C10_failed_read` evaluated on a concrete clean
state. -/
theorem claim_C10_failed_read_witness :
    (read stateB frame0).1 = false ∧
    ((read stateB frame0).2.1 = stateB ∧ (read stateB frame0).2.2 = frame0) :=
  ⟨by decide, claim_C10_failed_read stateB frame0 (by decide)⟩

/-- Claim C6: from a warm-up state with no cached previous frame, the first
processed frame triggers no flow computation and no integrator mutation, only
caching of the frame (the cached gyro rate is also untouched); the second
processed frame triggers exactly one flow computation and exactly one
integrator accumulation. -/
theorem claim_C6_warmup (focal : ℚ) (g0 : Vector3f) (st : OpticalFlowState)
    (ev1 ev2 : FrameEvent) :
    (loop_step focal ⟨none, g0, st⟩ ev1).2 = 0 ∧
    (loop_step focal ⟨none, g0, st⟩ ev1).1.st = st ∧
    (loop_step focal ⟨none, g0, st⟩ ev1).1._last_gyro_rate = g0 ∧
    (loop_step focal ⟨none, g0, st⟩ ev1).1._last_frame_timestamp =
      some ev1.timestamp ∧
    (loop_step focal ((loop_step focal ⟨none, g0, st⟩ ev1).1) ev2).2 = 1 ∧
    (loop_step focal ((loop_step focal ⟨none, g0, st⟩ ev1).1) ev2).1.st =
      integrate_sample focal st ev2.flow (ev2.timestamp - ev1.timestamp)
        ev2.gyro g0 ev2.qual := by
  simp [loop_step]

/-- Claim C9: on the first steady-state iteration after warm-up, the cached
previous angular-rate sample is still the default zero vector (the warm-up
iteration does not update it), so the first accumulated gyro term equals
current_rate / 2 times the elapsed time on each axis; the cached previous
rate is only promoted at the end of the steady-state iteration, to the
current sample. -/
theorem claim_C9_first_trapezoid (focal : ℚ) (ev1 ev2 : FrameEvent) :
    (loop_step focal initial_state ev1).1._last_gyro_rate = ⟨0, 0, 0⟩ ∧
    (loop_step focal ((loop_step focal initial_state ev1).1) ev2).1.st._gyro_x_integral =
      ev2.gyro.x / 2 * ((ev2.timestamp - ev1.timestamp : ℕ) : ℚ) ∧
    (loop_step focal ((loop_step focal initial_state ev1).1) ev2).1.st._gyro_y_integral =
      ev2.gyro.y / 2 * ((ev2.timestamp - ev1.timestamp : ℕ) : ℚ) ∧
    (loop_step focal ((loop_step focal initial_state ev1).1) ev2).1._last_gyro_rate =
      ev2.gyro := by
  refine ⟨by simp [loop_step, initial_state], ?_, ?_,
    by simp [loop_step, initial_state]⟩ <;>
    simp [loop_step, initial_state, integrate_sample]

/-- Additivity of the steady-state loop: over any event list the integrator
adds the per-iteration elapsed times and trapezoidal terms to its previous
contents, and the dirty flag ends up set as soon as one iteration ran. -/
theorem run_loop_adds (focal : ℚ) :
    ∀ (evs : List FrameEvent) (t0 : ℕ) (g0 : Vector3f)
      (st : OpticalFlowState),
    (run_loop focal ⟨some t0, g0, st⟩ evs).st._integration_timespan =
      st._integration_timespan + (elapsed_times t0 evs).sum ∧
    (run_loop focal ⟨some t0, g0, st⟩ evs).st._gyro_x_integral =
      st._gyro_x_integral + (trapezoid_terms_x g0 t0 evs).sum ∧
    (run_loop focal ⟨some t0, g0, st⟩ evs).st._gyro_y_integral =
      st._gyro_y_integral + (trapezoid_terms_y g0 t0 evs).sum ∧
    (run_loop focal ⟨some t0, g0, st⟩ evs).st._data_available =
      (st._data_available || !evs.isEmpty) := by
  intro evs
  induction evs with
  | nil =>
      intro t0 g0 st
      simp [run_loop, elapsed_times, trapezoid_terms_x, trapezoid_terms_y]
  | cons ev rest ih =>
      intro t0 g0 st
      obtain ⟨h1, h2, h3, h4⟩ :=
        ih ev.timestamp ev.gyro
          (integrate_sample focal st ev.flow (ev.timestamp - t0) ev.gyro g0
            ev.qual)
      have hstep : run_loop focal ⟨some t0, g0, st⟩ (ev :: rest) =
          run_loop focal ⟨some ev.timestamp, ev.gyro,
            integrate_sample focal st ev.flow (ev.timestamp - t0) ev.gyro g0
              ev.qual⟩ rest := rfl
      refine ⟨?_, ?_, ?_, ?_⟩
      · rw [hstep, h1]
        simp only [integrate_sample, elapsed_times, List.sum_cons]
        omega
      · rw [hstep, h2]
        simp only [integrate_sample, trapezoid_terms_x, List.sum_cons]
        ring
      · rw [hstep, h3]
        simp only [integrate_sample, trapezoid_terms_y, List.sum_cons]
        ring
      · rw [hstep, h4]
        simp [integrate_sample]

/-- Claim C5: after `N ≥ 1` consecutive steady-state acquisition iterations
starting from a freshly drained integrator, a single `read` succeeds and
returns a sample whose `delta_time` is the sum of the `N` per-iteration
elapsed times and whose gyro x/y integrals are the sums of the `N`
per-iteration trapezoidal terms. -/
theorem claim_C5_additivity (focal : ℚ) (t0 : ℕ) (g0 : Vector3f) (q : ℕ)
    (evs : List FrameEvent) (f : Data_Frame) (h : evs ≠ []) :
    (read (run_loop focal ⟨some t0, g0, drained q⟩ evs).st f).1 = true ∧
    (read (run_loop focal ⟨some t0, g0, drained q⟩ evs).st f).2.2.delta_time =
      (elapsed_times t0 evs).sum ∧
    (read (run_loop focal ⟨some t0, g0, drained q⟩ evs).st f).2.2.gyro_x_integral =
      (trapezoid_terms_x g0 t0 evs).sum ∧
    (read (run_loop focal ⟨some t0, g0, drained q⟩ evs).st f).2.2.gyro_y_integral =
      (trapezoid_terms_y g0 t0 evs).sum := by
  obtain ⟨h1, h2, h3, h4⟩ := run_loop_adds focal evs t0 g0 (drained q)
  have hda : (run_loop focal ⟨some t0, g0, drained q⟩ evs).st._data_available =
      true := by
    rw [h4]
    simp [drained, List.isEmpty_iff, h]
  have h1s : (run_loop focal ⟨some t0, g0, drained q⟩ evs).st._integration_timespan =
      (elapsed_times t0 evs).sum := by
    rw [h1]
    simp [drained]
  have h2s : (run_loop focal ⟨some t0, g0, drained q⟩ evs).st._gyro_x_integral =
      (trapezoid_terms_x g0 t0 evs).sum := by
    rw [h2]
    simp [drained]
  have h3s : (run_loop focal ⟨some t0, g0, drained q⟩ evs).st._gyro_y_integral =
      (trapezoid_terms_y g0 t0 evs).sum := by
    rw [h3]
    simp [drained]
  refine ⟨by simp [read, hda], ?_, ?_, ?_⟩ <;>
    simp [read, hda, h1s, h2s, h3s]

/-- A concrete acquisition event for the claim C5 witness. -/
def eventW : FrameEvent := ⟨10, ⟨2, 4, 0⟩, ⟨3, 5⟩, 7⟩

/-- Claim C5 witness: `claim_C5_additivity` applied to the one-event run
starting at timestamp 4 with previous rate (1, 1, 0). -/
theorem claim_C5_additivity_witness :
    ([eventW] ≠ ([] : List FrameEvent)) ∧
    ((read (run_loop 5 ⟨some 4, ⟨1, 1, 0⟩, drained 0⟩ [eventW]).st frame0).1 =
        true ∧
     (read (run_loop 5 ⟨some 4, ⟨1, 1, 0⟩, drained 0⟩ [eventW]).st frame0).2.2.delta_time =
       (elapsed_times 4 [eventW]).sum ∧
     (read (run_loop 5 ⟨some 4, ⟨1, 1, 0⟩, drained 0⟩ [eventW]).st frame0).2.2.gyro_x_integral =
       (trapezoid_terms_x ⟨1, 1, 0⟩ 4 [eventW]).sum ∧
     (read (run_loop 5 ⟨some 4, ⟨1, 1, 0⟩, drained 0⟩ [eventW]).st frame0).2.2.gyro_y_integral =
       (trapezoid_terms_y ⟨1, 1, 0⟩ 4 [eventW]).sum) :=
  ⟨by decide,
   claim_C5_additivity 5 4 ⟨1, 1, 0⟩ 0 [eventW] frame0 (by decide)⟩

end OpticalFlowOnboard
